import Mathlib

/-!
Shallow embedding of `tweet_bot.py` (not2cleverdotme/twitter_trend_bot).

External collaborators (HTTP feed fetches, the OpenAI summarization call, the
tweepy Twitter client, the environment, `random.choice`, the posted-articles
file) are modeled as explicit oracle parameters.  Machine time is a single
integer `now` in seconds (the script calls `datetime.utcnow()` twice a few
milliseconds apart; the run is modeled as instantaneous).  Network calls are
recorded in an explicit event trace so that ordering claims can be stated.
-/

/-- Python `s[:n]` for a nonnegative literal bound. -/
def pyTake (n : Nat) (s : String) : String :=
  String.mk (s.toList.take n)

/-- Python `s[:k]` where `k` may be negative: a negative stop counts from the
end of the string (`s[:-m]` drops the last `m` characters). -/
def pySliceTo (s : String) (k : Int) : String :=
  if 0 ≤ k then String.mk (s.toList.take k.toNat)
  else String.mk (s.toList.take (s.toList.length - (-k).toNat))

/-- Python `s.lower()` (ASCII-level model). -/
def pyLower (s : String) : String :=
  String.mk (s.toList.map Char.toLower)

/-- Python `s.strip()`: drop leading and trailing whitespace. -/
def pyStrip (s : String) : String :=
  String.mk (((s.toList.dropWhile Char.isWhitespace).reverse.dropWhile Char.isWhitespace).reverse)

/-- Python `s.startswith(p)`. -/
def pyStartsWith (p s : String) : Bool :=
  p.toList.isPrefixOf s.toList

/-- Python substring test `needle in haystack`. -/
def pyIn (needle haystack : String) : Bool :=
  (List.range (haystack.toList.length + 1)).any
    (fun i => needle.toList.isPrefixOf (haystack.toList.drop i))

/-- Character-level engine for `' '.join(s.split())`: `started` records whether
a word has been emitted, `pend` whether whitespace is pending. -/
def collapseWsAux : List Char → Bool → Bool → List Char
  | [], _, _ => []
  | c :: cs, started, pend =>
    if Char.isWhitespace c then collapseWsAux cs started true
    else if started && pend then ' ' :: c :: collapseWsAux cs true false
    else c :: collapseWsAux cs true false

/-- Python `' '.join(s.split())`: collapse whitespace runs to single spaces and
strip the ends. -/
def collapseWs (s : String) : String :=
  String.mk (collapseWsAux s.toList false false)

/-- Error kinds raised by the script's collaborators.  `tooManyRequests` is
`tweepy.errors.TooManyRequests`, `serverError` is
`tweepy.errors.TwitterServerError`, `retryError` is `tenacity.RetryError`
wrapping the last failure. -/
inductive PyError where
  | valueError (msg : String)
  | tooManyRequests
  | serverError
  | otherError
  | retryError (e : PyError)
  deriving Repr, DecidableEq

/-- One normalized news record, mirroring the dict built in
`fetch_cybersecurity_news` (the derived float `age_minutes`, used only for
logging, is omitted). -/
structure NewsEntry where
  title : String
  description : String
  link : String
  source : String
  published : Int
  deriving Repr, DecidableEq

/-- A raw feedparser entry: optional timestamp and content attributes model
`hasattr` checks; `content` stands for `content[0].value`. -/
structure RawEntry where
  title : String
  link : String
  published_parsed : Option Int := none
  updated_parsed : Option Int := none
  description : Option String := none
  summary : Option String := none
  content : Option String := none
  deriving Repr, DecidableEq

/-- Outcome of `requests.get` plus `feedparser.parse` for one feed URL:
`raised` models a transport exception, otherwise an HTTP status and the
parsed entries. -/
structure FeedResponse where
  raised : Bool := false
  status : Nat := 200
  entries : List RawEntry := []
  deriving Repr

/-- The hard-coded RSS registry (url, display name). -/
def feedRegistry : List (String × String) :=
  [("https://www.bleepingcomputer.com/feed/", "BleepingComputer"),
   ("https://www.darkreading.com/rss_simple.asp", "Dark Reading"),
   ("https://www.cyberscoop.com/feed/", "CyberScoop"),
   ("https://feeds.feedburner.com/TheHackersNews", "The Hacker News"),
   ("https://blog.rapid7.com/rss/", "Rapid7 Blog"),
   ("https://techcrunch.com/tag/security/feed/", "TechCrunch"),
   ("https://www.hackread.com/feed/", "HackRead"),
   ("https://krebsonsecurity.com/feed/", "Krebs on Security"),
   ("https://threatpost.com/feed/", "Threatpost")]

/-- Timestamp resolution: prefer `published_parsed`, fall back to
`updated_parsed`, otherwise the entry is skipped. -/
def resolvePubDate (e : RawEntry) : Option Int :=
  match e.published_parsed with
  | some t => some t
  | none => e.updated_parsed

/-- Content extraction: first present attribute among `description`,
`summary`, `content`; a missing or falsy (empty) result falls back to the
(stripped) title. -/
def extractDescription (e : RawEntry) (title : String) : String :=
  let firstPresent :=
    match e.description with
    | some c => some c
    | none =>
      match e.summary with
      | some c => some c
      | none => e.content
  match firstPresent with
  | none => title
  | some s => if s = "" then title else s

/-- Normalization of one raw entry (the body of the inner loop of
`fetch_cybersecurity_news`): resolve the timestamp, keep only entries at most
24 hours old, strip the title, clean and truncate the description. -/
def processEntry (now : Int) (srcName : String) (e : RawEntry) : Option NewsEntry :=
  match resolvePubDate e with
  | none => none
  | some pub =>
    if now - pub ≤ 86400 then
      some { title := pyStrip e.title
             description := pyTake 250 (collapseWs (extractDescription e (pyStrip e.title)))
             link := e.link
             source := srcName
             published := pub }
    else none

/-- Aggregation over the registry: skip a feed whose fetch raised, returned a
non-200 status, or parsed to no entries; otherwise normalize its first five
entries. -/
def collectFrom (now : Int) (responses : String → FeedResponse) :
    List (String × String) → List NewsEntry
  | [] => []
  | (url, name) :: rest =>
    (if (responses url).raised then []
     else if (responses url).status ≠ 200 then []
     else if (responses url).entries.isEmpty then []
     else ((responses url).entries.take 5).filterMap (processEntry now name))
    ++ collectFrom now responses rest

/-- Stable insertion (descending by `published`): a new element passes
elements with a strictly smaller key only, matching Python's stable
`sort(key=..., reverse=True)`. -/
def insertByPublishedDesc (x : NewsEntry) : List NewsEntry → List NewsEntry
  | [] => [x]
  | y :: ys =>
    if y.published < x.published then x :: y :: ys
    else y :: insertByPublishedDesc x ys

/-- `all_entries.sort(key=lambda x: x['published'], reverse=True)`. -/
def sortByPublishedDesc (l : List NewsEntry) : List NewsEntry :=
  l.foldl (fun acc x => insertByPublishedDesc x acc) []

/-- Selection policy over the aggregated pool: sort newest-first, filter to
the last 12 hours, choose randomly among those (`random.choice` is modeled by
the uniform index `r`, reduced mod the list length), else fall back to the
newest entry, else nothing. -/
def selectEntry (now : Int) (r : Nat) (allEntries : List NewsEntry) : Option NewsEntry :=
  if allEntries.isEmpty then none
  else
    let sorted := sortByPublishedDesc allEntries
    let recent := sorted.filter (fun e => now - e.published ≤ 43200)
    if recent.isEmpty then sorted.head?
    else recent.get? (r % recent.length)

/-- `fetch_cybersecurity_news`: aggregate the registry then apply the
selection policy.  `responses` is the network oracle, `r` the randomness. -/
def fetch_cybersecurity_news (now : Int) (r : Nat) (responses : String → FeedResponse) :
    Option NewsEntry :=
  selectEntry now r (collectFrom now responses feedRegistry)

/-- The aggregated pool of one fetch (before selection). -/
def aggregatedPool (now : Int) (responses : String → FeedResponse) : List NewsEntry :=
  collectFrom now responses feedRegistry

/-- The entries eligible for random selection: at most 12 hours old, in
newest-first order. -/
def recentPool (now : Int) (responses : String → FeedResponse) : List NewsEntry :=
  (sortByPublishedDesc (aggregatedPool now responses)).filter
    (fun e => now - e.published ≤ 43200)

/-- Assembly of the final post (`generate_tweet_content` lines 273-278):
reserve room for the link and a newline, truncate the summary with an
ellipsis when it exceeds that budget, then append newline and link. -/
def composeTweet (tweetContent link : String) : String :=
  let maxLength : Int := 280 - (link.length : Int) - 1
  let content :=
    if (tweetContent.length : Int) > maxLength then
      pySliceTo tweetContent (maxLength - 3) ++ "..."
    else tweetContent
  content ++ "\n" ++ link

/-- `get_article_hash`: sha256 hexdigest of `title + "|" + link`.  The digest
function itself is an opaque collaborator (`hashlib`); no claim depends on its
definition, so it is passed as a parameter. -/
def get_article_hash (digest : String → String) (news : NewsEntry) : String :=
  digest (news.title ++ "|" ++ news.link)

/-- `save_posted_article`: load the hash set, add the hash, rewrite the file
(the file is modeled as the list of hashes it holds, with set semantics). -/
def save_posted_article (h : String) (file : List String) : List String :=
  if h ∈ file then file else file ++ [h]

/-- Matching loop of `is_article_already_posted`, given the fetched recent
tweets: the raw (not lowercased) link, or the first 30 characters of the
lowercased title when it is longer than 10 characters, as a substring of the
lowercased tweet text. -/
def is_article_already_posted_pure (title link : String) (recentTweets : List String) : Bool :=
  if recentTweets.isEmpty then false
  else
    let articleTitle := pyLower title
    recentTweets.any (fun tw =>
      let tweetText := pyLower tw
      pyIn link tweetText ||
        ((articleTitle != "" && articleTitle.length > 10) &&
          pyIn (pyTake 30 articleTitle) tweetText))

/-- The Twitter read used by `get_recent_tweets`: the client requests
`max_results=20`, so the API returns at most the 20 most recent posts of the
account timeline. -/
def twitterTimelineRead (timeline : List String) : List String :=
  timeline.take 20

/-- Duplicate predicate as the specification words it (claim C6): the
LOWERCASED candidate link as a substring of the lowercased post text, or the
title rule.  Kept separate from the code-derived
`is_article_already_posted_pure` for comparison. -/
def specClaimedDuplicate (title link : String) (recentTweets : List String) : Bool :=
  recentTweets.any (fun tw =>
    pyIn (pyLower link) (pyLower tw) ||
      (title.length > 10 && pyIn (pyTake 30 (pyLower title)) (pyLower tw)))

/-- `max(min, min(w, max))`: how `tenacity.wait_exponential` clamps. -/
def clampWait (mn mx w : Nat) : Nat := max mn (min w mx)

/-- `tenacity.wait_exponential(multiplier, min, max)` evaluated after the
failure of attempt number `attemptNumber` (1-based):
`multiplier * 2 ^ attemptNumber` clamped into `[min, max]`. -/
def waitExponential (multiplier mn mx attemptNumber : Nat) : Nat :=
  clampWait mn mx (multiplier * 2 ^ attemptNumber)

/-- Core loop of a `tenacity.retry` decorator.  `body k` is the outcome of
attempt number `k`; `fuel` is the number of retries still allowed.  Returns
the final outcome, the number of the last attempt made, and the list of
backoff waits slept.  On a non-retryable error the error propagates at once;
on exhaustion the last error is re-raised when `reraise` is set, otherwise a
`RetryError` wrapping it is raised. -/
def tenacityGo (retryOn : PyError → Bool) (reraise : Bool) (wait : Nat → Nat)
    (body : Nat → Except PyError α) :
    Nat → Nat → Except PyError α × Nat × List Nat
  | attempt, 0 =>
    match body attempt with
    | .ok a => (.ok a, attempt, [])
    | .error e =>
      if retryOn e then
        ((if reraise then .error e else .error (.retryError e)), attempt, [])
      else (.error e, attempt, [])
  | attempt, fuel' + 1 =>
    match body attempt with
    | .ok a => (.ok a, attempt, [])
    | .error e =>
      if retryOn e then
        (let rest := tenacityGo retryOn reraise wait body (attempt + 1) fuel'
         (rest.1, rest.2.1, wait attempt :: rest.2.2))
      else (.error e, attempt, [])

/-- A `tenacity.retry(stop=stop_after_attempt maxAttempts, ...)` decorator. -/
def tenacityRetry (maxAttempts : Nat) (retryOn : PyError → Bool) (reraise : Bool)
    (wait : Nat → Nat) (body : Nat → Except PyError α) :
    Except PyError α × Nat × List Nat :=
  tenacityGo retryOn reraise wait body 1 (maxAttempts - 1)

def isTooManyRequests : PyError → Bool
  | .tooManyRequests => true
  | _ => false

def isServerError : PyError → Bool
  | .serverError => true
  | _ => false

/-- The retry policy of `generate_tweet_content`:
`retry(stop=stop_after_attempt(3), wait=wait_exponential(multiplier=1, min=4,
max=10), reraise=True)` with the default retry predicate (any exception). -/
def generateRetryPolicy (body : Nat → Except PyError α) :
    Except PyError α × Nat × List Nat :=
  tenacityRetry 3 (fun _ => true) true (waitExponential 1 4 10) body

/-- The retry policy of `post_tweet`:
`retry(stop=stop_after_attempt(5), wait=wait_exponential(multiplier=60,
min=60, max=3600), retry=retry_if_exception_type(TooManyRequests))`. -/
def publishRetryPolicy (body : Nat → Except PyError α) :
    Except PyError α × Nat × List Nat :=
  tenacityRetry 5 isTooManyRequests false (waitExponential 60 60 3600) body

/-- Body of one `get_recent_tweets` attempt given the API outcome:
`TooManyRequests` and `TwitterServerError` are re-raised for the decorator,
any other exception is swallowed and an empty list returned. -/
def get_recent_tweets_body (attemptResult : Except PyError (List String)) :
    Except PyError (List String) :=
  match attemptResult with
  | .ok l => .ok l
  | .error .tooManyRequests => .error .tooManyRequests
  | .error .serverError => .error .serverError
  | .error _ => .ok []

/-- `get_recent_tweets` with its decorator:
`retry(stop=stop_after_attempt(3), wait=wait_exponential(multiplier=2, min=4,
max=10), retry=retry_if_exception_type((TooManyRequests,
TwitterServerError)))`. -/
def get_recent_tweets_run (attempts : Nat → Except PyError (List String)) :
    Except PyError (List String) :=
  (tenacityRetry 3 (fun e => isTooManyRequests e || isServerError e) false
    (waitExponential 2 4 10) (fun k => get_recent_tweets_body (attempts k))).1

/-- `is_article_already_posted` including its exception handling: every catch
branch (rate limit, server error, generic) returns `False`, so a failing
remote read degrades to "not a duplicate" instead of propagating. -/
def is_article_already_posted_run (title link : String)
    (attempts : Nat → Except PyError (List String)) : Except PyError Bool :=
  match get_recent_tweets_run attempts with
  | .ok tweets => .ok (is_article_already_posted_pure title link tweets)
  | .error _ => .ok false

/-- Observable actions of one run.  `feedFetch` is one `requests.get` of a
feed, `rateLimitCheck` the Twitter read in `check_rate_limits`, `remoteCheck`
the `get_recent_tweets` read inside `is_article_already_posted` (tagged with
the candidate link), `localCheck` the membership test against the persisted
hash set, `summarize` the OpenAI call, `createTweet` the publish call (with
its success flag), `saveHash` the `save_posted_article` write. -/
inductive Event where
  | feedFetch (url : String)
  | rateLimitCheck
  | remoteCheck (link : String)
  | localCheck (h : String)
  | summarize
  | createTweet (text : String) (ok : Bool)
  | saveHash (h : String)
  deriving Repr, DecidableEq

/-- The nine `requests.get` calls of one `fetch_cybersecurity_news` call. -/
def feedFetchEvents : List Event :=
  feedRegistry.map (fun p => Event.feedFetch p.1)

/-- `if not os.getenv(var)`: absent or empty counts as missing. -/
def envFalsy (env : String → Option String) (v : String) : Bool :=
  match env v with
  | none => true
  | some s => s == ""

def missingOf (env : String → Option String) (vars : List String) : List String :=
  vars.filter (fun v => envFalsy env v)

/-- The five variables checked in `__main__`. -/
def requiredVars : List String :=
  ["TWITTER_API_KEY", "TWITTER_API_SECRET", "TWITTER_ACCESS_TOKEN",
   "TWITTER_ACCESS_TOKEN_SECRET", "OPENAI_API_KEY"]

/-- The four variables checked in `get_twitter_client`. -/
def twitterRequiredVars : List String :=
  ["TWITTER_API_KEY", "TWITTER_API_SECRET", "TWITTER_ACCESS_TOKEN",
   "TWITTER_ACCESS_TOKEN_SECRET"]

/-- All collaborator outcomes of one run.  `fetch_cybersecurity_news` is
called twice (once in `post_tweet`, once in `generate_tweet_content`), each
with its own network answer and its own `random.choice` draw.  `remote` is
the (post-retry) outcome of `get_recent_tweets`; `summaryResult` the OpenAI
completion; `createResult` the publish outcome. -/
structure World where
  env : String → Option String
  now : Int
  feeds1 : String → FeedResponse
  rand1 : Nat
  remote : Except PyError (List String)
  feeds2 : String → FeedResponse
  rand2 : Nat
  summaryResult : Except PyError String
  createResult : Except PyError Nat

/-- The duplicate decision taken in `post_tweet` line 392: a failing remote
read yields `False` (see `is_article_already_posted_run`). -/
def remoteDuplicate (w : World) (news : NewsEntry) : Bool :=
  match w.remote with
  | .ok tweets => is_article_already_posted_pure news.title news.link tweets
  | .error _ => false

/-- One attempt of `generate_tweet_content` (its tenacity decorator is
modeled separately by `generateRetryPolicy`; collaborator outcomes are fixed
within a run, so repeated attempts coincide).  Returns either an error, or
`none` (no news / local duplicate), or the composed tweet with its article
hash, together with the events performed. -/
def generateAttempt (digest : String → String) (w : World) (file : List String) :
    Except PyError (Option (String × String)) × List Event :=
  if envFalsy w.env "OPENAI_API_KEY" then
    (.error (.valueError "Missing OPENAI_API_KEY environment variable"), [])
  else
    if pyStartsWith "sk-" (pyStrip ((w.env "OPENAI_API_KEY").getD "")) then
      match fetch_cybersecurity_news w.now w.rand2 w.feeds2 with
      | none => (.ok none, feedFetchEvents)
      | some news =>
        let articleHash := get_article_hash digest news
        if articleHash ∈ file then
          (.ok none, feedFetchEvents ++ [Event.localCheck articleHash])
        else
          match w.summaryResult with
          | .error e => (.error e, feedFetchEvents ++ [Event.localCheck articleHash, Event.summarize])
          | .ok content =>
            (.ok (some (composeTweet (pyStrip content) news.link, articleHash)),
             feedFetchEvents ++ [Event.localCheck articleHash, Event.summarize])
    else
      (.error (.valueError "Invalid OpenAI API key format. Key should start with sk-"), [])

/-- One attempt of `post_tweet`: client setup (environment check, no I/O),
rate-limit check, first fetch, remote duplicate check, content generation,
publish, and — only after a successful publish — the hash record write.
Returns the outcome, the new persisted file, and the event trace. -/
def postTweetAttempt (digest : String → String) (w : World) (file : List String) :
    Except PyError (Option Nat) × List String × List Event :=
  if (missingOf w.env twitterRequiredVars).isEmpty then
    match fetch_cybersecurity_news w.now w.rand1 w.feeds1 with
    | none => (.ok none, file, Event.rateLimitCheck :: feedFetchEvents)
    | some news =>
      if remoteDuplicate w news then
        (.ok none, file,
         Event.rateLimitCheck :: (feedFetchEvents ++ [Event.remoteCheck news.link]))
      else
        match generateAttempt digest w file with
        | (.error e, gevs) =>
          (.error e, file,
           Event.rateLimitCheck :: (feedFetchEvents ++ (Event.remoteCheck news.link :: gevs)))
        | (.ok none, gevs) =>
          (.ok none, file,
           Event.rateLimitCheck :: (feedFetchEvents ++ (Event.remoteCheck news.link :: gevs)))
        | (.ok (some (tweetContent, articleHash)), gevs) =>
          match w.createResult with
          | .error e =>
            (.error e, file,
             Event.rateLimitCheck :: (feedFetchEvents ++
               (Event.remoteCheck news.link :: (gevs ++ [Event.createTweet tweetContent false]))))
          | .ok tweetId =>
            if articleHash != "" then
              (.ok (some tweetId), save_posted_article articleHash file,
               Event.rateLimitCheck :: (feedFetchEvents ++
                 (Event.remoteCheck news.link ::
                   (gevs ++ [Event.createTweet tweetContent true, Event.saveHash articleHash]))))
            else
              (.ok (some tweetId), file,
               Event.rateLimitCheck :: (feedFetchEvents ++
                 (Event.remoteCheck news.link :: (gevs ++ [Event.createTweet tweetContent true]))))
  else
    (.error (.valueError "Missing required environment variables"), file, [])

/-- The tenacity loop around `post_tweet`
(`retry_if_exception_type(TooManyRequests)`, 5 attempts): `fuel` counts the
retries still allowed; failed attempts leave the file as they found it, so
each retry re-reads the same state. -/
def postTweetGo (digest : String → String) (w : World) :
    Nat → List String → Except PyError (Option Nat) × List String × List Event
  | 0, file =>
    match postTweetAttempt digest w file with
    | (.error .tooManyRequests, file1, tr1) =>
      (.error (.retryError .tooManyRequests), file1, tr1)
    | (res, file1, tr1) => (res, file1, tr1)
  | fuel' + 1, file =>
    match postTweetAttempt digest w file with
    | (.error .tooManyRequests, file1, tr1) =>
      let rest := postTweetGo digest w fuel' file1
      (rest.1, rest.2.1, tr1 ++ rest.2.2)
    | (res, file1, tr1) => (res, file1, tr1)

/-- `post_tweet` with its decorator: five attempts at most. -/
def post_tweet (digest : String → String) (w : World) (file : List String) :
    Except PyError (Option Nat) × List String × List Event :=
  postTweetGo digest w 4 file

/-- `__main__`: after the startup sleep (no I/O), verify the five required
environment variables before anything else; only then run `post_tweet`. -/
def mainRun (digest : String → String) (w : World) (file : List String) :
    Except PyError (Option Nat) × List String × List Event :=
  if (missingOf w.env requiredVars).isEmpty then post_tweet digest w file
  else
    (.error (.valueError ("Missing required environment variables: " ++
       String.intercalate ", " (missingOf w.env requiredVars))), file, [])

/-- An event that neither records a hash nor is a successful publish. -/
def eventNeutral : Event → Bool
  | Event.createTweet _ ok => !ok
  | Event.saveHash _ => false
  | _ => true

def isCreateSuccess : Event → Bool
  | Event.createTweet _ true => true
  | _ => false

def hasCreateSuccess (l : List Event) : Bool := l.any isCreateSuccess

def isFeedFetchEv : Event → Bool
  | Event.feedFetch _ => true
  | _ => false

/-- Scans a trace and checks that every `saveHash` comes strictly after some
successful `createTweet` (`seen` carries whether one has occurred yet). -/
def recordsAfterPublish (seen : Bool) : List Event → Bool
  | [] => true
  | Event.feedFetch _ :: rest => recordsAfterPublish seen rest
  | Event.rateLimitCheck :: rest => recordsAfterPublish seen rest
  | Event.remoteCheck _ :: rest => recordsAfterPublish seen rest
  | Event.localCheck _ :: rest => recordsAfterPublish seen rest
  | Event.summarize :: rest => recordsAfterPublish seen rest
  | Event.createTweet _ ok :: rest => recordsAfterPublish (seen || ok) rest
  | Event.saveHash _ :: rest => seen && recordsAfterPublish seen rest

/-- Scans a trace and checks that every `localCheck` comes strictly after
some `remoteCheck` (`seen` carries whether one has occurred yet). -/
def localAfterRemote (seen : Bool) : List Event → Bool
  | [] => true
  | Event.feedFetch _ :: rest => localAfterRemote seen rest
  | Event.rateLimitCheck :: rest => localAfterRemote seen rest
  | Event.remoteCheck _ :: rest => localAfterRemote true rest
  | Event.localCheck _ :: rest => seen && localAfterRemote seen rest
  | Event.summarize :: rest => localAfterRemote seen rest
  | Event.createTweet _ _ :: rest => localAfterRemote seen rest
  | Event.saveHash _ :: rest => localAfterRemote seen rest

/-- Digest stand-in used for concrete runs (the claims are digest-generic). -/
def identityDigest : String → String := fun s => s

/-- An environment with all five required variables present and a well-formed
OpenAI key. -/
def envAll : String → Option String := fun v =>
  if v = "TWITTER_API_KEY" then some "k1"
  else if v = "TWITTER_API_SECRET" then some "k2"
  else if v = "TWITTER_ACCESS_TOKEN" then some "k3"
  else if v = "TWITTER_ACCESS_TOKEN_SECRET" then some "k4"
  else if v = "OPENAI_API_KEY" then some "sk-test"
  else none

def rawA : RawEntry :=
  { title := "Alpha Zero Day Exploited In The Wild", link := "https://a/1",
    published_parsed := some 996400 }

def rawB : RawEntry :=
  { title := "Beta Botnet Campaign Expands Quickly", link := "https://b/2",
    published_parsed := some 992800 }

/-- Feed oracle: the first registry feed returns two fresh entries, every
other URL a 404. -/
def respAB : String → FeedResponse := fun url =>
  if url = "https://www.bleepingcomputer.com/feed/" then { entries := [rawA, rawB] }
  else { status := 404 }

/-- `rawA` after normalization at `now = 1000000` (age one hour). -/
def newsA : NewsEntry :=
  { title := "Alpha Zero Day Exploited In The Wild",
    description := "Alpha Zero Day Exploited In The Wild",
    link := "https://a/1", source := "BleepingComputer", published := 996400 }

/-- `rawB` after normalization at `now = 1000000` (age two hours). -/
def newsB : NewsEntry :=
  { title := "Beta Botnet Campaign Expands Quickly",
    description := "Beta Botnet Campaign Expands Quickly",
    link := "https://b/2", source := "BleepingComputer", published := 992800 }

/-- A run whose publish call raises a server error. -/
def worldPublishFails : World :=
  { env := envAll, now := 1000000, feeds1 := respAB, rand1 := 0,
    remote := .ok [], feeds2 := respAB, rand2 := 0,
    summaryResult := .ok "Alpha summary", createResult := .error .serverError }

/-- A run in which the selected entry's hash is already in the local set. -/
def worldLocalHit : World :=
  { env := envAll, now := 1000000, feeds1 := respAB, rand1 := 0,
    remote := .ok [], feeds2 := respAB, rand2 := 0,
    summaryResult := .ok "Alpha summary", createResult := .ok 5 }

/-- The local file already holding `newsA`'s hash. -/
def fileWithA : List String :=
  [identityDigest ("Alpha Zero Day Exploited In The Wild" ++ "|" ++ "https://a/1")]

/-- Environment with every variable present but a malformed OpenAI key. -/
def envBadKey : String → Option String := fun v =>
  if v = "OPENAI_API_KEY" then some "bad-key" else envAll v

def worldBadKey : World :=
  { env := envBadKey, now := 1000000, feeds1 := respAB, rand1 := 0,
    remote := .ok [], feeds2 := respAB, rand2 := 0,
    summaryResult := .ok "Alpha summary", createResult := .ok 5 }

/-- Environment missing the OpenAI variable entirely. -/
def envNoOpenai : String → Option String := fun v =>
  if v = "OPENAI_API_KEY" then none else envAll v

def worldNoOpenai : World :=
  { env := envNoOpenai, now := 1000000, feeds1 := respAB, rand1 := 0,
    remote := .ok [], feeds2 := respAB, rand2 := 0,
    summaryResult := .ok "Alpha summary", createResult := .ok 5 }

/-- A run with two recent entries where the first `random.choice` draws the
newer entry and the second draws the older one. -/
def worldTwoFetches : World :=
  { env := envAll, now := 1000000, feeds1 := respAB, rand1 := 0,
    remote := .ok [], feeds2 := respAB, rand2 := 1,
    summaryResult := .ok "Fresh botnet findings", createResult := .ok 7 }

/-- The 280-character link that breaks the unconditional length bound. -/
def longLink : String := String.mk (List.replicate 280 'a')

theorem recordsAfterPublish_of_allNeutral (s : Bool) :
    ∀ l : List Event, l.all eventNeutral = true → recordsAfterPublish s l = true := by
  intro l
  induction l generalizing s with
  | nil => intro _; rfl
  | cons e rest ih =>
    intro h
    rw [List.all_cons, Bool.and_eq_true] at h
    cases e with
    | createTweet t ok =>
      cases ok with
      | false => simpa [recordsAfterPublish] using ih (s || false) h.2
      | true => simp [eventNeutral] at h
    | saveHash hh => simp [eventNeutral] at h
    | feedFetch u => simpa [recordsAfterPublish] using ih s h.2
    | rateLimitCheck => simpa [recordsAfterPublish] using ih s h.2
    | remoteCheck u => simpa [recordsAfterPublish] using ih s h.2
    | localCheck u => simpa [recordsAfterPublish] using ih s h.2
    | summarize => simpa [recordsAfterPublish] using ih s h.2

theorem recordsAfterPublish_append_neutral (s : Bool) :
    ∀ l1 l2 : List Event, l1.all eventNeutral = true →
      recordsAfterPublish s (l1 ++ l2) = recordsAfterPublish s l2 := by
  intro l1
  induction l1 generalizing s with
  | nil => intro l2 _; rfl
  | cons e rest ih =>
    intro l2 h
    rw [List.all_cons, Bool.and_eq_true] at h
    cases e with
    | createTweet t ok =>
      cases ok with
      | false => simpa [recordsAfterPublish] using ih (s || false) l2 h.2
      | true => simp [eventNeutral] at h
    | saveHash hh => simp [eventNeutral] at h
    | feedFetch u => simpa [recordsAfterPublish] using ih s l2 h.2
    | rateLimitCheck => simpa [recordsAfterPublish] using ih s l2 h.2
    | remoteCheck u => simpa [recordsAfterPublish] using ih s l2 h.2
    | localCheck u => simpa [recordsAfterPublish] using ih s l2 h.2
    | summarize => simpa [recordsAfterPublish] using ih s l2 h.2

theorem hasCreateSuccess_of_allNeutral :
    ∀ l : List Event, l.all eventNeutral = true → hasCreateSuccess l = false := by
  intro l
  induction l with
  | nil => intro _; rfl
  | cons e rest ih =>
    intro h
    rw [List.all_cons, Bool.and_eq_true] at h
    have hr := ih h.2
    cases e with
    | createTweet t ok =>
      cases ok with
      | false => simpa [hasCreateSuccess, isCreateSuccess] using hr
      | true => simp [eventNeutral] at h
    | saveHash hh => simp [eventNeutral] at h
    | feedFetch u => simpa [hasCreateSuccess, isCreateSuccess] using hr
    | rateLimitCheck => simpa [hasCreateSuccess, isCreateSuccess] using hr
    | remoteCheck u => simpa [hasCreateSuccess, isCreateSuccess] using hr
    | localCheck u => simpa [hasCreateSuccess, isCreateSuccess] using hr
    | summarize => simpa [hasCreateSuccess, isCreateSuccess] using hr

theorem localAfterRemote_true : ∀ l : List Event, localAfterRemote true l = true := by
  intro l
  induction l with
  | nil => rfl
  | cons e rest ih => cases e <;> simp [localAfterRemote, ih]

theorem localAfterRemote_append (s : Bool) :
    ∀ l1 l2 : List Event, localAfterRemote s l1 = true →
      localAfterRemote false l2 = true → localAfterRemote s (l1 ++ l2) = true := by
  intro l1
  induction l1 generalizing s with
  | nil =>
    intro l2 _ h2
    cases s with
    | false => simpa using h2
    | true => simpa using localAfterRemote_true l2
  | cons e rest ih =>
    intro l2 h1 h2
    cases e with
    | remoteCheck u =>
      rw [localAfterRemote] at h1
      simpa [localAfterRemote] using ih true l2 h1 h2
    | localCheck u =>
      rw [localAfterRemote, Bool.and_eq_true] at h1
      rw [List.cons_append, localAfterRemote, h1.1]
      simpa using ih true l2 (h1.1 ▸ h1.2) h2
    | feedFetch u =>
      rw [localAfterRemote] at h1
      simpa [localAfterRemote] using ih s l2 h1 h2
    | rateLimitCheck =>
      rw [localAfterRemote] at h1
      simpa [localAfterRemote] using ih s l2 h1 h2
    | summarize =>
      rw [localAfterRemote] at h1
      simpa [localAfterRemote] using ih s l2 h1 h2
    | createTweet t ok =>
      rw [localAfterRemote] at h1
      simpa [localAfterRemote] using ih s l2 h1 h2
    | saveHash hh =>
      rw [localAfterRemote] at h1
      simpa [localAfterRemote] using ih s l2 h1 h2

theorem feedFetchEvents_allNeutral : feedFetchEvents.all eventNeutral = true := by decide

/-- The fixed prefix `rateLimitCheck :: feedFetchEvents` of every trace that
passes the client setup is neutral for the record-after-publish scan. -/
theorem recordsAfterPublish_setup (s : Bool) (X : List Event) :
    recordsAfterPublish s (Event.rateLimitCheck :: (feedFetchEvents ++ X)) =
      recordsAfterPublish s X := rfl

theorem localAfterRemote_setup (s : Bool) (X : List Event) :
    localAfterRemote s (Event.rateLimitCheck :: (feedFetchEvents ++ X)) =
      localAfterRemote s X := rfl

theorem generateAttempt_events_neutral (digest : String → String) (w : World) (file : List String) :
    (generateAttempt digest w file).2.all eventNeutral = true := by
  unfold generateAttempt
  repeat' split
  all_goals simp [apply_ite Prod.snd, apply_ite (fun l : List Event => l.all eventNeutral),
    List.all_append, feedFetchEvents_allNeutral, eventNeutral]

theorem postTweetAttempt_records (digest : String → String) (w : World) (file : List String) :
    recordsAfterPublish false (postTweetAttempt digest w file).2.2 = true := by
  unfold postTweetAttempt
  split
  · split
    · rfl
    next news _ =>
      split
      · rfl
      · split
        next e gevs heq =>
          have hg := generateAttempt_events_neutral digest w file
          rw [heq] at hg
          rw [recordsAfterPublish_setup]
          show recordsAfterPublish false (Event.remoteCheck news.link :: gevs) = true
          rw [show recordsAfterPublish false (Event.remoteCheck news.link :: gevs) =
                recordsAfterPublish false gevs from rfl]
          exact recordsAfterPublish_of_allNeutral false gevs (by simpa using hg)
        next gevs heq =>
          have hg := generateAttempt_events_neutral digest w file
          rw [heq] at hg
          rw [recordsAfterPublish_setup]
          show recordsAfterPublish false (Event.remoteCheck news.link :: gevs) = true
          rw [show recordsAfterPublish false (Event.remoteCheck news.link :: gevs) =
                recordsAfterPublish false gevs from rfl]
          exact recordsAfterPublish_of_allNeutral false gevs (by simpa using hg)
        next tc ah gevs heq =>
          have hg := generateAttempt_events_neutral digest w file
          rw [heq] at hg
          simp only [List.all_eq_true] at hg
          split
          · rw [recordsAfterPublish_setup]
            show recordsAfterPublish false
              (Event.remoteCheck news.link :: (gevs ++ [Event.createTweet tc false])) = true
            rw [show recordsAfterPublish false
                  (Event.remoteCheck news.link :: (gevs ++ [Event.createTweet tc false])) =
                  recordsAfterPublish false (gevs ++ [Event.createTweet tc false]) from rfl]
            rw [recordsAfterPublish_append_neutral false gevs _ (by simpa [List.all_eq_true] using hg)]
            rfl
          · split
            · rw [recordsAfterPublish_setup]
              show recordsAfterPublish false
                (Event.remoteCheck news.link ::
                  (gevs ++ [Event.createTweet tc true, Event.saveHash ah])) = true
              rw [show recordsAfterPublish false
                    (Event.remoteCheck news.link ::
                      (gevs ++ [Event.createTweet tc true, Event.saveHash ah])) =
                    recordsAfterPublish false
                      (gevs ++ [Event.createTweet tc true, Event.saveHash ah]) from rfl]
              rw [recordsAfterPublish_append_neutral false gevs _
                    (by simpa [List.all_eq_true] using hg)]
              rfl
            · rw [recordsAfterPublish_setup]
              show recordsAfterPublish false
                (Event.remoteCheck news.link :: (gevs ++ [Event.createTweet tc true])) = true
              rw [show recordsAfterPublish false
                    (Event.remoteCheck news.link :: (gevs ++ [Event.createTweet tc true])) =
                    recordsAfterPublish false (gevs ++ [Event.createTweet tc true]) from rfl]
              rw [recordsAfterPublish_append_neutral false gevs _
                    (by simpa [List.all_eq_true] using hg)]
              rfl
  · rfl

theorem postTweetAttempt_unchanged (digest : String → String) (w : World) (file : List String) :
    hasCreateSuccess (postTweetAttempt digest w file).2.2 = false →
    (postTweetAttempt digest w file).2.1 = file := by
  unfold postTweetAttempt
  repeat' split
  all_goals intro hC
  all_goals try rfl
  all_goals simp [hasCreateSuccess, List.any_append, isCreateSuccess] at hC

theorem postTweetAttempt_lar (digest : String → String) (w : World) (file : List String) :
    localAfterRemote false (postTweetAttempt digest w file).2.2 = true := by
  unfold postTweetAttempt
  repeat' split
  all_goals first
    | rfl
    | exact localAfterRemote_true _

theorem postTweetAttempt_error (digest : String → String) (w : World) (file : List String) :
    ∀ e, (postTweetAttempt digest w file).1 = .error e →
      (postTweetAttempt digest w file).2.1 = file ∧
      (postTweetAttempt digest w file).2.2.all eventNeutral = true := by
  unfold postTweetAttempt
  split
  · split
    · intro e he; exact absurd he (by simp)
    next news _ =>
      split
      · intro e he; exact absurd he (by simp)
      · split
        next e' gevs heq =>
          intro e he
          have hg := generateAttempt_events_neutral digest w file
          rw [heq] at hg
          refine ⟨rfl, ?_⟩
          simpa [List.all_append, List.all_cons, feedFetchEvents_allNeutral, eventNeutral]
            using hg
        next gevs heq =>
          intro e he; exact absurd he (by simp)
        next tc ah gevs heq =>
          have hg := generateAttempt_events_neutral digest w file
          rw [heq] at hg
          split
          · intro e he
            refine ⟨rfl, ?_⟩
            simpa [List.all_append, List.all_cons, feedFetchEvents_allNeutral, eventNeutral]
              using hg
          · split
            · intro e he; exact absurd he (by simp)
            · intro e he; exact absurd he (by simp)
  · intro e he; exact ⟨rfl, rfl⟩

theorem postTweetGo_spec (digest : String → String) (w : World) :
    ∀ fuel file,
      recordsAfterPublish false (postTweetGo digest w fuel file).2.2 = true ∧
      (hasCreateSuccess (postTweetGo digest w fuel file).2.2 = false →
        (postTweetGo digest w fuel file).2.1 = file) ∧
      localAfterRemote false (postTweetGo digest w fuel file).2.2 = true := by
  intro fuel
  induction fuel with
  | zero =>
    intro file
    have hA1 := postTweetAttempt_records digest w file
    have hA2 := postTweetAttempt_unchanged digest w file
    have hA3 := postTweetAttempt_lar digest w file
    rcases ha : postTweetAttempt digest w file with ⟨e | v, file1, tr1⟩
    · rw [ha] at hA1 hA2 hA3
      cases e <;> (simp only [postTweetGo, ha]; exact ⟨hA1, hA2, hA3⟩)
    · rw [ha] at hA1 hA2 hA3
      simp only [postTweetGo, ha]
      exact ⟨hA1, hA2, hA3⟩
  | succ fuel' ih =>
    intro file
    have hA1 := postTweetAttempt_records digest w file
    have hA2 := postTweetAttempt_unchanged digest w file
    have hA3 := postTweetAttempt_lar digest w file
    have hA4 := postTweetAttempt_error digest w file
    rcases ha : postTweetAttempt digest w file with ⟨e | v, file1, tr1⟩
    swap
    · rw [ha] at hA1 hA2 hA3
      simp only [postTweetGo, ha]
      exact ⟨hA1, hA2, hA3⟩
    · rw [ha] at hA1 hA2 hA3 hA4
      cases e
      case tooManyRequests =>
        have hE := hA4 .tooManyRequests rfl
        have hneutral : tr1.all eventNeutral = true := hE.2
        have hfile : file1 = file := hE.1
        have hI := ih file1
        rcases hg : postTweetGo digest w fuel' file1 with ⟨res2, file2, tr2⟩
        rw [hg] at hI
        simp only [postTweetGo, ha, hg]
        refine ⟨?_, ?_, ?_⟩
        · show recordsAfterPublish false (tr1 ++ tr2) = true
          rw [recordsAfterPublish_append_neutral false tr1 tr2 hneutral]
          exact hI.1
        · show hasCreateSuccess (tr1 ++ tr2) = false → file2 = file
          intro hC
          rw [hasCreateSuccess, List.any_append, Bool.or_eq_false_iff] at hC
          have h2 := hI.2.1 hC.2
          exact h2.trans hfile
        · show localAfterRemote false (tr1 ++ tr2) = true
          exact localAfterRemote_append false tr1 tr2 hA3 hI.2.2
      all_goals (simp only [postTweetGo, ha]; exact ⟨hA1, hA2, hA3⟩)

/-- C1: a hash is added to the persisted posted-articles set only after the
publish call has returned success in the same run: the whole-run trace never
shows a `saveHash` before a successful `createTweet`, and a run with no
successful publish leaves the persisted set unchanged. -/
theorem claim1_record_after_publish (digest : String → String) (w : World) (file : List String) :
    recordsAfterPublish false (mainRun digest w file).2.2 = true ∧
    (hasCreateSuccess (mainRun digest w file).2.2 = false →
      (mainRun digest w file).2.1 = file) := by
  unfold mainRun post_tweet
  split
  · have h := postTweetGo_spec digest w 4 file
    exact ⟨h.1, h.2.1⟩
  · exact ⟨rfl, fun _ => rfl⟩

theorem claim1_record_after_publish_witness :
    (mainRun identityDigest worldPublishFails ["h0"]).2.1 = ["h0"] :=
  (claim1_record_after_publish identityDigest worldPublishFails ["h0"]).2 (by decide)

/-- C5 (amended): in every run the remote history check comes before the
local hash-set membership test — never the other way round — and a local hit
(on the entry fetched inside content generation, hashed as
`digest(title + "|" + link)`) still skips the run without a summarization or
publish call, though the remote network call has already been made. -/
theorem claim5_remote_before_local :
    (∀ (digest : String → String) (w : World) (file : List String),
      localAfterRemote false (mainRun digest w file).2.2 = true) ∧
    (∀ (digest : String → String) (w : World) (file : List String) (news : NewsEntry),
      envFalsy w.env "OPENAI_API_KEY" = false →
      pyStartsWith "sk-" (pyStrip ((w.env "OPENAI_API_KEY").getD "")) = true →
      fetch_cybersecurity_news w.now w.rand2 w.feeds2 = some news →
      get_article_hash digest news ∈ file →
      generateAttempt digest w file =
        (.ok none, feedFetchEvents ++ [Event.localCheck (get_article_hash digest news)])) := by
  constructor
  · intro digest w file
    unfold mainRun post_tweet
    split
    · exact (postTweetGo_spec digest w 4 file).2.2
    · rfl
  · intro digest w file news h1 h2 h3 h4
    unfold generateAttempt
    rw [h3]
    simp [h1, h2, h4]

theorem claim5_remote_before_local_witness :
    generateAttempt identityDigest worldLocalHit fileWithA =
      (.ok none, feedFetchEvents ++ [Event.localCheck (get_article_hash identityDigest newsA)]) :=
  claim5_remote_before_local.2 identityDigest worldLocalHit fileWithA newsA
    (by decide) (by decide) (by decide) (by decide)

/-- Counterexample to C5 as stated: a run whose candidate hash is already in
the persisted set still performs the remote history read (the
`remoteCheck` network call, at position 10 of the trace) and performs it
before the local membership test (position 20), so the local check is neither
first nor able to avoid the network call. -/
theorem claim5_counterexample :
    get_article_hash identityDigest newsA ∈ fileWithA ∧
    (mainRun identityDigest worldLocalHit fileWithA).2.2.get? 10 =
      some (Event.remoteCheck "https://a/1") ∧
    (mainRun identityDigest worldLocalHit fileWithA).2.2.get? 20 =
      some (Event.localCheck (get_article_hash identityDigest newsA)) ∧
    (10 : Nat) < 20 := by
  refine ⟨by decide, by decide, by decide, by decide⟩

theorem envFalsy_of_noMissing (env : String → Option String)
    (h : (missingOf env requiredVars).isEmpty = true) (v : String)
    (hv : v ∈ requiredVars) : envFalsy env v = false := by
  rw [List.isEmpty_iff] at h
  unfold missingOf at h
  have h2 := List.filter_eq_nil_iff.mp h v hv
  simpa using h2

theorem missing_twitter_sub (env : String → Option String)
    (h : (missingOf env requiredVars).isEmpty = true) :
    (missingOf env twitterRequiredVars).isEmpty = true := by
  rw [List.isEmpty_iff] at h ⊢
  unfold missingOf at h ⊢
  rw [List.filter_eq_nil_iff] at h ⊢
  intro a ha
  apply h
  simp only [twitterRequiredVars, List.mem_cons, List.not_mem_nil, or_false] at ha
  simp only [requiredVars, List.mem_cons, List.not_mem_nil, or_false]
  tauto

/-- C9 (amended): a run missing any required environment variable fails with
a configuration error before any network I/O (empty trace, file untouched); a
malformed (present but not `sk-` prefixed) summarization key also terminates
the run with a configuration error and without any summarization or publish
call, but only after the feed fetches and the remote duplicate check have
already performed network I/O. -/
theorem claim9_config_failfast :
    (∀ (digest : String → String) (w : World) (file : List String),
      (missingOf w.env requiredVars).isEmpty = false →
      mainRun digest w file =
        (.error (.valueError ("Missing required environment variables: " ++
           String.intercalate ", " (missingOf w.env requiredVars))), file, [])) ∧
    (∀ (digest : String → String) (w : World) (file : List String) (news : NewsEntry),
      (missingOf w.env requiredVars).isEmpty = true →
      fetch_cybersecurity_news w.now w.rand1 w.feeds1 = some news →
      remoteDuplicate w news = false →
      pyStartsWith "sk-" (pyStrip ((w.env "OPENAI_API_KEY").getD "")) = false →
      (mainRun digest w file).1 =
        .error (.valueError "Invalid OpenAI API key format. Key should start with sk-") ∧
      Event.summarize ∉ (mainRun digest w file).2.2 ∧
      (∀ t b, Event.createTweet t b ∉ (mainRun digest w file).2.2) ∧
      (mainRun digest w file).2.1 = file) := by
  constructor
  · intro digest w file h
    unfold mainRun
    simp [h]
  · intro digest w file news hvars hfetch hdup hkey
    have hopenai : envFalsy w.env "OPENAI_API_KEY" = false :=
      envFalsy_of_noMissing w.env hvars "OPENAI_API_KEY" (by simp [requiredVars])
    have hgen : generateAttempt digest w file =
        (.error (.valueError "Invalid OpenAI API key format. Key should start with sk-"), []) := by
      unfold generateAttempt
      simp [hopenai, hkey]
    have hatt : postTweetAttempt digest w file =
        (.error (.valueError "Invalid OpenAI API key format. Key should start with sk-"), file,
         Event.rateLimitCheck :: (feedFetchEvents ++ [Event.remoteCheck news.link])) := by
      unfold postTweetAttempt
      rw [missing_twitter_sub w.env hvars, hfetch]
      simp [hdup, hgen]
    have hmain : mainRun digest w file =
        (.error (.valueError "Invalid OpenAI API key format. Key should start with sk-"), file,
         Event.rateLimitCheck :: (feedFetchEvents ++ [Event.remoteCheck news.link])) := by
      unfold mainRun post_tweet
      rw [hvars]
      simp only [if_true]
      simp only [postTweetGo, hatt]
    refine ⟨?_, ?_, ?_, ?_⟩
    · rw [hmain]
    · rw [hmain]
      simp [feedFetchEvents, feedRegistry]
    · intro t b
      rw [hmain]
      simp [feedFetchEvents, feedRegistry]
    · rw [hmain]

/-- Counterexample to C9 as stated: with a malformed summarization key the
run does fail with a configuration error, but only after feed fetches have
performed network I/O — the trace contains a `requests.get` of the first
feed, contradicting "no feed fetch ... is made". -/
theorem claim9_counterexample :
    (mainRun identityDigest worldBadKey []).1 =
      .error (.valueError "Invalid OpenAI API key format. Key should start with sk-") ∧
    Event.feedFetch "https://www.bleepingcomputer.com/feed/" ∈
      (mainRun identityDigest worldBadKey []).2.2 := by
  refine ⟨rfl, by decide⟩

theorem claim9_config_failfast_witness :
    mainRun identityDigest worldNoOpenai [] =
      (.error (.valueError "Missing required environment variables: OPENAI_API_KEY"), [], []) ∧
    (mainRun identityDigest worldBadKey []).2.1 = ([] : List String) :=
  ⟨claim9_config_failfast.1 identityDigest worldNoOpenai [] (by decide),
   (claim9_config_failfast.2 identityDigest worldBadKey [] newsA (by decide) (by decide)
      (by decide) (by decide)).2.2.2⟩

/-- C10: the pipeline runs feed aggregation and random selection twice per
run (18 `requests.get` events), and in the exhibited run — whose recent pool
has two entries — the entry checked against the remote posting history
(`newsA`, link `https://a/1`) is not the entry that is summarized and
published (`newsB`, link `https://b/2`). -/
theorem claim10_divergent_entries :
    (recentPool 1000000 respAB).length = 2 ∧
    Event.remoteCheck "https://a/1" ∈ (mainRun identityDigest worldTwoFetches []).2.2 ∧
    Event.createTweet (composeTweet "Fresh botnet findings" "https://b/2") true ∈
      (mainRun identityDigest worldTwoFetches []).2.2 ∧
    ("https://a/1" : String) ≠ "https://b/2" ∧
    ((mainRun identityDigest worldTwoFetches []).2.2.filter isFeedFetchEv).length = 18 := by
  refine ⟨by decide, by decide, by decide, by decide, by decide⟩

theorem strLength_append (a b : String) : (a ++ b).length = a.length + b.length := by
  rcases a with ⟨la⟩
  rcases b with ⟨lb⟩
  show (la ++ lb).length = la.length + lb.length
  exact List.length_append la lb

theorem pySliceTo_length_nonneg (s : String) (k : Int) (hk : 0 ≤ k) :
    (pySliceTo s k).length = min k.toNat s.length := by
  unfold pySliceTo
  rw [if_pos hk]
  show (s.toList.take k.toNat).length = min k.toNat s.length
  rw [List.length_take]
  rfl

set_option maxRecDepth 8000 in
/-- Counterexample to C2 as stated: for a 280-character link the assembled
post is 285 characters long — `280 - len(link) - 1` is negative, Python's
negative slice keeps almost all of the summary, and no re-check happens
after assembly. -/
theorem claim2_counterexample :
    ¬ ((composeTweet "hello" longLink).length ≤ 280) := by decide

/-- C2 (amended): provided the link is at most 276 characters, the assembled
post is at most 280 characters; the post always ends with the newline and the
intact link; when the summary fits the budget it is kept verbatim, and when
it overflows it is truncated with an ellipsis before assembly, making the
post exactly 280 characters.  There is no re-check after assembly, and for
links longer than 276 characters the bound can fail. -/
theorem claim2_length_bound (tweetContent link : String) (hl : link.length ≤ 276) :
    (composeTweet tweetContent link).length ≤ 280 ∧
    (∃ body : String, composeTweet tweetContent link = body ++ "\n" ++ link) ∧
    ((tweetContent.length : Int) ≤ 280 - (link.length : Int) - 1 →
      composeTweet tweetContent link = tweetContent ++ "\n" ++ link) ∧
    ((tweetContent.length : Int) > 280 - (link.length : Int) - 1 →
      composeTweet tweetContent link =
        (pySliceTo tweetContent (280 - (link.length : Int) - 1 - 3) ++ "...") ++ "\n" ++ link ∧
      (composeTweet tweetContent link).length = 280) := by
  have hellipsis : ("..." : String).length = 3 := rfl
  have hnl : ("\n" : String).length = 1 := rfl
  by_cases hover : (tweetContent.length : Int) > 280 - (link.length : Int) - 1
  · have hc : composeTweet tweetContent link =
        (pySliceTo tweetContent (280 - (link.length : Int) - 1 - 3) ++ "...") ++ "\n" ++ link := by
      simp only [composeTweet]
      rw [if_pos hover]
    have hlen : (composeTweet tweetContent link).length = 280 := by
      rw [hc, strLength_append, strLength_append, strLength_append,
        pySliceTo_length_nonneg tweetContent _ (by omega), hellipsis, hnl]
      omega
    exact ⟨by omega, ⟨_, hc⟩, fun hle => absurd hover (by omega), fun _ => ⟨hc, hlen⟩⟩
  · have hc : composeTweet tweetContent link = tweetContent ++ "\n" ++ link := by
      simp only [composeTweet]
      rw [if_neg hover]
    have hlen : (composeTweet tweetContent link).length ≤ 280 := by
      rw [hc, strLength_append, strLength_append, hnl]
      omega
    exact ⟨hlen, ⟨_, hc⟩, fun _ => hc, fun h => absurd h hover⟩

theorem claim2_length_bound_witness :
    ("https://a/1" : String).length ≤ 276 ∧
    (composeTweet "hello world" "https://a/1").length ≤ 280 :=
  ⟨by decide, (claim2_length_bound "hello world" "https://a/1" (by decide)).1⟩

/-- C4: every entry admitted to the aggregated pool is at most 24 hours old,
every entry in the random-selection pool is at most 12 hours old, and a raw
entry with neither a published nor an updated timestamp is dropped. -/
theorem claim4_freshness (now : Int) (responses : String → FeedResponse) :
    (∀ e ∈ aggregatedPool now responses, now - e.published ≤ 86400) ∧
    (∀ e ∈ recentPool now responses, now - e.published ≤ 43200) ∧
    (∀ (srcName : String) (e : RawEntry), e.published_parsed = none →
      e.updated_parsed = none → processEntry now srcName e = none) := by
  refine ⟨?_, ?_, ?_⟩
  · have main : ∀ reg : List (String × String), ∀ e ∈ collectFrom now responses reg,
        now - e.published ≤ 86400 := by
      intro reg
      induction reg with
      | nil => intro e he; simp [collectFrom] at he
      | cons p rest ih =>
        intro e he
        rcases p with ⟨url, name⟩
        rw [collectFrom] at he
        rcases List.mem_append.mp he with h1 | h2
        · split at h1
          · simp at h1
          · split at h1
            · simp at h1
            · split at h1
              · simp at h1
              · obtain ⟨raw, _, hpe⟩ := List.mem_filterMap.mp h1
                unfold processEntry at hpe
                rcases hres : resolvePubDate raw with _ | pub
                · rw [hres] at hpe; simp at hpe
                · rw [hres] at hpe
                  simp at hpe
                  obtain ⟨hage, rfl⟩ := hpe
                  simp only []
                  omega
        · exact ih e h2
    exact main feedRegistry
  · intro e he
    unfold recentPool at he
    have h2 := List.mem_filter.mp he
    simpa using h2.2
  · intro srcName e h1 h2
    simp [processEntry, resolvePubDate, h1, h2]

theorem claim4_freshness_witness :
    newsA ∈ aggregatedPool 1000000 respAB ∧ (1000000 : Int) - newsA.published ≤ 86400 :=
  ⟨by decide, (claim4_freshness 1000000 respAB).1 newsA (by decide)⟩

theorem mem_insertByPublishedDesc (a x : NewsEntry) :
    ∀ l, a ∈ insertByPublishedDesc x l ↔ a = x ∨ a ∈ l := by
  intro l
  induction l with
  | nil => simp [insertByPublishedDesc]
  | cons y ys ih =>
    simp only [insertByPublishedDesc]
    split
    · exact List.mem_cons
    · rw [List.mem_cons, ih, List.mem_cons]
      tauto

theorem sortedDesc_insert (x : NewsEntry) :
    ∀ l, List.Pairwise (fun a b => b.published ≤ a.published) l →
      List.Pairwise (fun a b => b.published ≤ a.published) (insertByPublishedDesc x l) := by
  intro l
  induction l with
  | nil => intro _; simp [insertByPublishedDesc]
  | cons y ys ih =>
    intro h
    rw [List.pairwise_cons] at h
    simp only [insertByPublishedDesc]
    split
    next hlt =>
      rw [List.pairwise_cons]
      constructor
      · intro b hb
        rcases List.mem_cons.mp hb with rfl | hb2
        · omega
        · have hby := h.1 b hb2
          omega
      · rw [List.pairwise_cons]
        exact h
    next hge =>
      rw [List.pairwise_cons]
      constructor
      · intro b hb
        rcases (mem_insertByPublishedDesc b x ys).mp hb with rfl | hb2
        · omega
        · exact h.1 b hb2
      · exact ih h.2

theorem sortAux_mem (a : NewsEntry) :
    ∀ (l acc : List NewsEntry),
      a ∈ l.foldl (fun acc x => insertByPublishedDesc x acc) acc ↔ a ∈ acc ∨ a ∈ l := by
  intro l
  induction l with
  | nil => intro acc; simp
  | cons x xs ih =>
    intro acc
    rw [List.foldl_cons, ih (insertByPublishedDesc x acc), mem_insertByPublishedDesc,
      List.mem_cons]
    tauto

theorem sortAux_sorted :
    ∀ (l acc : List NewsEntry),
      List.Pairwise (fun a b => b.published ≤ a.published) acc →
      List.Pairwise (fun a b => b.published ≤ a.published)
        (l.foldl (fun acc x => insertByPublishedDesc x acc) acc) := by
  intro l
  induction l with
  | nil => intro acc h; simpa using h
  | cons x xs ih =>
    intro acc h
    rw [List.foldl_cons]
    exact ih _ (sortedDesc_insert x acc h)

theorem mem_sortByPublishedDesc (a : NewsEntry) (l : List NewsEntry) :
    a ∈ sortByPublishedDesc l ↔ a ∈ l := by
  unfold sortByPublishedDesc
  rw [sortAux_mem]
  simp

theorem sorted_sortByPublishedDesc (l : List NewsEntry) :
    List.Pairwise (fun a b => b.published ≤ a.published) (sortByPublishedDesc l) :=
  sortAux_sorted l [] (by simp)

/-- C3: given the aggregated pool, the selection policy returns the element
of the recent (≤ 12h, newest-first) pool at the uniform random index `r`
reduced mod its size when that pool is non-empty (and every recent entry is
reachable by some draw); otherwise the most-recent entry of the whole pool
when it is non-empty; otherwise nothing. -/
theorem claim3_selection_policy (now : Int) (responses : String → FeedResponse) (r : Nat) :
    (recentPool now responses ≠ [] →
      fetch_cybersecurity_news now r responses =
        (recentPool now responses).get? (r % (recentPool now responses).length) ∧
      ∀ e ∈ recentPool now responses, ∃ r2,
        fetch_cybersecurity_news now r2 responses = some e) ∧
    (recentPool now responses = [] → aggregatedPool now responses ≠ [] →
      ∃ e, fetch_cybersecurity_news now r responses = some e ∧
        e ∈ aggregatedPool now responses ∧
        ∀ b ∈ aggregatedPool now responses, b.published ≤ e.published) ∧
    (aggregatedPool now responses = [] →
      fetch_cybersecurity_news now r responses = none) := by
  refine ⟨?_, ?_, ?_⟩
  · intro hrec
    have hall : collectFrom now responses feedRegistry ≠ [] := by
      intro h0
      apply hrec
      unfold recentPool aggregatedPool
      rw [h0]
      rfl
    have hf : (collectFrom now responses feedRegistry).isEmpty = false := by
      simpa [List.isEmpty_eq_false] using hall
    have hrecf : ((sortByPublishedDesc (collectFrom now responses feedRegistry)).filter
        (fun e => now - e.published ≤ 43200)).isEmpty = false := by
      rw [List.isEmpty_eq_false]
      simpa [recentPool, aggregatedPool] using hrec
    constructor
    · unfold fetch_cybersecurity_news
      simp only [selectEntry, hf, Bool.false_eq_true, if_false, hrecf]
      rfl
    · intro e he
      have he2 := he
      unfold recentPool aggregatedPool at he2
      obtain ⟨i, hilt, hie⟩ := List.getElem_of_mem he2
      refine ⟨i, ?_⟩
      unfold fetch_cybersecurity_news
      simp only [selectEntry, hf, Bool.false_eq_true, if_false, hrecf]
      have hmod : i % ((sortByPublishedDesc (collectFrom now responses feedRegistry)).filter
          (fun e => now - e.published ≤ 43200)).length = i := Nat.mod_eq_of_lt hilt
      rw [hmod, List.get?_eq_getElem?, List.getElem?_eq_getElem hilt, hie]
  · intro hrec hpool
    have hall : collectFrom now responses feedRegistry ≠ [] := by
      simpa [aggregatedPool] using hpool
    have hf : (collectFrom now responses feedRegistry).isEmpty = false := by
      simpa [List.isEmpty_eq_false] using hall
    have hrect : ((sortByPublishedDesc (collectFrom now responses feedRegistry)).filter
        (fun e => now - e.published ≤ 43200)).isEmpty = true := by
      rw [List.isEmpty_iff]
      simpa [recentPool, aggregatedPool] using hrec
    rcases hsort : sortByPublishedDesc (collectFrom now responses feedRegistry) with _ | ⟨hd, tl⟩
    · exfalso
      rcases hcoll : collectFrom now responses feedRegistry with _ | ⟨a, rest⟩
      · exact hall hcoll
      · have ha : a ∈ sortByPublishedDesc (collectFrom now responses feedRegistry) := by
          rw [mem_sortByPublishedDesc, hcoll]
          exact List.mem_cons_self a rest
        rw [hsort] at ha
        simp at ha
    · refine ⟨hd, ?_, ?_, ?_⟩
      · unfold fetch_cybersecurity_news
        simp only [selectEntry, hf, Bool.false_eq_true, if_false, hsort]
        rw [hsort] at hrect
        simp only [hrect, if_true]
        rfl
      · have : hd ∈ sortByPublishedDesc (collectFrom now responses feedRegistry) := by
          rw [hsort]
          exact List.mem_cons_self hd tl
        rw [mem_sortByPublishedDesc] at this
        simpa [aggregatedPool] using this
      · intro b hb
        have hbs : b ∈ sortByPublishedDesc (collectFrom now responses feedRegistry) := by
          rw [mem_sortByPublishedDesc]
          simpa [aggregatedPool] using hb
        have hs := sorted_sortByPublishedDesc (collectFrom now responses feedRegistry)
        rw [hsort] at hbs hs
        rw [List.pairwise_cons] at hs
        rcases List.mem_cons.mp hbs with rfl | hb2
        · exact le_refl _
        · exact hs.1 b hb2
  · intro hpool
    have hf : (collectFrom now responses feedRegistry).isEmpty = true := by
      rw [List.isEmpty_iff]
      simpa [aggregatedPool] using hpool
    unfold fetch_cybersecurity_news
    simp only [selectEntry, hf, if_true]

theorem claim3_selection_policy_witness :
    recentPool 1000000 respAB ≠ [] ∧
    fetch_cybersecurity_news 1000000 1 respAB =
      (recentPool 1000000 respAB).get? (1 % (recentPool 1000000 respAB).length) :=
  ⟨by decide, ((claim3_selection_policy 1000000 respAB 1).1 (by decide)).1⟩

/-- Counterexample to C6 as stated: the code matches the candidate link
verbatim (it never lowercases it), so a link containing an uppercase letter
fails to match the lowercased post text even though the claim's lowercased
comparison would report a duplicate. -/
theorem claim6_counterexample :
    is_article_already_posted_pure "short" "https://Ex.com"
      ["read https://ex.com now"] = false ∧
    specClaimedDuplicate "short" "https://Ex.com"
      ["read https://ex.com now"] = true := by
  refine ⟨by decide, by decide⟩

/-- C6 (amended): the remote check reads a window of at most 20 recent posts,
and reports a duplicate iff some post in the window contains the candidate
link VERBATIM (not lowercased) as a substring of the lowercased post text, or
the lowercased candidate title is non-empty, longer than 10 characters, and
its first 30 characters occur in the lowercased post text. -/
theorem claim6_remote_match (title link : String) (timeline : List String) :
    (twitterTimelineRead timeline).length ≤ 20 ∧
    (is_article_already_posted_pure title link (twitterTimelineRead timeline) = true ↔
      ∃ tw ∈ twitterTimelineRead timeline,
        (pyIn link (pyLower tw) = true ∨
          (pyLower title ≠ "" ∧ (pyLower title).length > 10 ∧
            pyIn (pyTake 30 (pyLower title)) (pyLower tw) = true))) := by
  constructor
  · simp [twitterTimelineRead]
  · simp only [is_article_already_posted_pure]
    split
    next hemp =>
      rw [List.isEmpty_iff] at hemp
      simp [hemp]
    next hemp =>
      rw [List.any_eq_true]
      constructor
      · rintro ⟨tw, htw, hp⟩
        refine ⟨tw, htw, ?_⟩
        simp only [Bool.or_eq_true, Bool.and_eq_true, bne_iff_ne, decide_eq_true_eq] at hp
        tauto
      · rintro ⟨tw, htw, hp⟩
        refine ⟨tw, htw, ?_⟩
        simp only [Bool.or_eq_true, Bool.and_eq_true, bne_iff_ne, decide_eq_true_eq]
        tauto

theorem claim6_remote_match_witness :
    is_article_already_posted_pure "A Very Long Security Headline" "https://a/1"
      (twitterTimelineRead ["update: https://a/1 is exploited"]) = true :=
  (claim6_remote_match "A Very Long Security Headline" "https://a/1"
      ["update: https://a/1 is exploited"]).2.mpr
    ⟨"update: https://a/1 is exploited", by decide, Or.inl (by decide)⟩

/-- C7: a failing remote-history read (rate limit, server error, or any other
exception, including retry exhaustion) makes the duplicate check return the
non-duplicate answer instead of propagating; the check always returns a
boolean, and a single `post_tweet` attempt behaves exactly as if the remote
read had returned no posts. -/
theorem claim7_graceful_degradation :
    (∀ (title link : String) (attempts : Nat → Except PyError (List String)),
      ∃ b, is_article_already_posted_run title link attempts = .ok b) ∧
    (∀ (title link : String) (attempts : Nat → Except PyError (List String)) (e : PyError),
      get_recent_tweets_run attempts = .error e →
      is_article_already_posted_run title link attempts = .ok false) ∧
    (∀ (digest : String → String) (w : World) (file : List String) (e : PyError),
      postTweetAttempt digest { w with remote := .error e } file =
        postTweetAttempt digest { w with remote := .ok [] } file) := by
  refine ⟨?_, ?_, ?_⟩
  · intro title link attempts
    unfold is_article_already_posted_run
    rcases h : get_recent_tweets_run attempts with e | tweets
    · exact ⟨false, rfl⟩
    · exact ⟨is_article_already_posted_pure title link tweets, rfl⟩
  · intro title link attempts e h
    unfold is_article_already_posted_run
    rw [h]
  · intro digest w file e
    rfl

theorem claim7_graceful_degradation_witness :
    is_article_already_posted_run "t" "https://a/1"
      (fun _ => .error .serverError) = .ok false :=
  claim7_graceful_degradation.2.1 "t" "https://a/1"
    (fun _ => .error .serverError) (.retryError .serverError) rfl

theorem tenacityGo_attempt_le {α : Type} (retryOn : PyError → Bool) (reraise : Bool)
    (wait : Nat → Nat) (body : Nat → Except PyError α) :
    ∀ fuel attempt, (tenacityGo retryOn reraise wait body attempt fuel).2.1 ≤ attempt + fuel := by
  intro fuel
  induction fuel with
  | zero =>
    intro attempt
    simp only [tenacityGo]
    rcases body attempt with e | a
    · by_cases hr : retryOn e = true <;> simp [hr]
    · simp
  | succ fuel' ih =>
    intro attempt
    simp only [tenacityGo]
    rcases body attempt with e | a
    · by_cases hr : retryOn e = true
      · simp only [hr, if_true]
        have := ih (attempt + 1)
        omega
      · simp only [hr]
        simp
    · simp

/-- C8: the retry policies.  Summarization (`generate_tweet_content`) makes
at most 3 attempts, retries any error kind, re-raises the final failure, and
its backoff waits are `wait_exponential(multiplier=1, min=4, max=10)` values
(here `[4, 4]`), all within the configured 4s..10s window.  Publish
(`post_tweet`) makes at most 5 attempts, retries only `TooManyRequests`
(any other error propagates immediately after the first attempt, with no
wait), and its backoff waits are
`wait_exponential(multiplier=60, min=60, max=3600)` values
(`[120, 240, 480, 960]`), all within the configured 60s..3600s window. -/
theorem claim8_retry_policies :
    (∀ (α : Type) (body : Nat → Except PyError α),
      (generateRetryPolicy body).2.1 ≤ 3) ∧
    (∀ (α : Type) (body : Nat → Except PyError α) (e1 e2 e3 : PyError),
      body 1 = .error e1 → body 2 = .error e2 → body 3 = .error e3 →
      generateRetryPolicy body = (.error e3, 3, [4, 4])) ∧
    (∀ (α : Type) (body : Nat → Except PyError α) (a : α),
      body 1 = .ok a → generateRetryPolicy body = (.ok a, 1, [])) ∧
    (∀ (α : Type) (body : Nat → Except PyError α),
      (publishRetryPolicy body).2.1 ≤ 5) ∧
    (∀ (α : Type) (body : Nat → Except PyError α) (e : PyError),
      body 1 = .error e → isTooManyRequests e = false →
      publishRetryPolicy body = (.error e, 1, [])) ∧
    (∀ (α : Type) (body : Nat → Except PyError α),
      (∀ k, body k = .error .tooManyRequests) →
      publishRetryPolicy body =
        (.error (.retryError .tooManyRequests), 5, [120, 240, 480, 960])) ∧
    (∀ k, 1 ≤ k → 4 ≤ waitExponential 1 4 10 k ∧ waitExponential 1 4 10 k ≤ 10) ∧
    (∀ k, 60 ≤ waitExponential 60 60 3600 k ∧ waitExponential 60 60 3600 k ≤ 3600) := by
  refine ⟨?_, ?_, ?_, ?_, ?_, ?_, ?_, ?_⟩
  · intro α body
    exact tenacityGo_attempt_le _ _ _ body 2 1
  · intro α body e1 e2 e3 h1 h2 h3
    simp [generateRetryPolicy, tenacityRetry, tenacityGo, h1, h2, h3,
      waitExponential, clampWait]
  · intro α body a h1
    simp [generateRetryPolicy, tenacityRetry, tenacityGo, h1]
  · intro α body
    exact tenacityGo_attempt_le _ _ _ body 4 1
  · intro α body e h1 hr
    simp [publishRetryPolicy, tenacityRetry, tenacityGo, h1, hr]
  · intro α body h
    simp [publishRetryPolicy, tenacityRetry, tenacityGo, h, isTooManyRequests,
      waitExponential, clampWait]
  · intro k hk
    unfold waitExponential clampWait
    have h2 : 2 ≤ 2 ^ k := by
      calc 2 = 2 ^ 1 := rfl
      _ ≤ 2 ^ k := Nat.pow_le_pow_right (by omega) hk
    omega
  · intro k
    unfold waitExponential clampWait
    omega

theorem claim8_retry_policies_witness :
    generateRetryPolicy (fun _ => (.error .otherError : Except PyError Nat)) =
      (.error .otherError, 3, [4, 4]) ∧
    publishRetryPolicy (fun _ => (.error .serverError : Except PyError Nat)) =
      (.error .serverError, 1, []) ∧
    publishRetryPolicy (fun _ => (.error .tooManyRequests : Except PyError Nat)) =
      (.error (.retryError .tooManyRequests), 5, [120, 240, 480, 960]) :=
  ⟨claim8_retry_policies.2.1 Nat _ .otherError .otherError .otherError rfl rfl rfl,
   claim8_retry_policies.2.2.2.2.1 Nat _ .serverError rfl rfl,
   claim8_retry_policies.2.2.2.2.2.1 Nat _ (fun _ => rfl)⟩
